import Mathlib

/-!
Shallow embedding of the node-mahi client (TritonDataCenter/node-mahi),
covering the authorization decision engine (`MahiClient.prototype.authorize`),
the identity retriever (`_get`, `getUser`, `getUserById`) and the batch
translator (`getName`).  Pure functions model the JavaScript methods; the
transport and the aperture rule evaluator are passed in as function-valued
collaborators, and cache interactions are made explicit (the cache contents
read, and the writes performed, are part of each operation's outcome).
-/

/-- The distinguished administrator role name (`ADMIN_ROLE_NAME` in the source). -/
def ADMIN_ROLE_NAME : String := "administrator"

/-- An account blob, as delivered by mahi: the fields the client reads. -/
structure Account where
  uuid : String
  login : String
  approved_for_provisioning : Bool
  isOperator : Bool
deriving DecidableEq

/-- A user sub-identity blob: the fields the client reads. -/
structure User where
  uuid : String
  login : String
  account : String
deriving DecidableEq

/-- A parsed aperture rule (`rule[1]` in the source).  The client only
inspects its `resources` field (`=== 1` marks a wildcard target, i.e. the
aperture parser saw `*` or `all`); the rest is opaque and represented by
`body`. -/
structure ParsedRule where
  resources : Option Nat
  body : String
deriving DecidableEq

/-- A role: name, owning account uuid, and `rules` as (rawText, parsed) pairs. -/
structure Role where
  name : String
  uuid : String
  account : String
  rules : List (String × ParsedRule)
deriving DecidableEq

/-- A principal: account, optional user, and the mapping role-uuid → role
(a JavaScript object, embedded as an association list). -/
structure Principal where
  account : Account
  user : Option User
  roles : List (String × Role)
deriving DecidableEq

/-- A resource: owner identity plus the role-tag uuids on the resource. -/
structure Resource where
  owner : Principal
  roles : List String
deriving DecidableEq

/-- The request conditions: `activeRoles` plus opaque further context. -/
structure Conditions where
  activeRoles : List String
  other : List (String × String)
deriving DecidableEq

/-- The context object handed to the aperture evaluator
(`{action, conditions, resource: ''}` in the source). -/
structure EvalContext where
  action : String
  conditions : Conditions
  resource : String
deriving DecidableEq

/-- The structured failures `authorize` can throw. -/
inductive AuthError
  | AccountBlocked (login : String)
  | InvalidRole (role : String)
  | NoMatchingRoleTag
  | RulesEvaluationFailed
deriving DecidableEq

/-- Outcome of the `for` loop over `activeRoles` inside `authorize`:
an early `return true` (administrator bypass), a thrown error, or fall
through with the accumulated `matchingRoles` and `rulesToEvaluate`. -/
inductive LoopResult
  | allow
  | err (e : AuthError)
  | done (matchingRoles : List String) (rulesToEvaluate : List ParsedRule)
deriving DecidableEq

/-- The `for (i = 0; i < activeRoles.length; ++i)` loop of `authorize`,
embedded as structural recursion over the remaining active roles, carrying
the `matchingRoles` and `rulesToEvaluate` accumulators. -/
def roleLoop (principal : Principal) (owner : Principal) (resourceTags : List String) :
    List String → List String → List ParsedRule → LoopResult
  | [], matchingRoles, rulesToEvaluate => .done matchingRoles rulesToEvaluate
  | r :: rest, matchingRoles, rulesToEvaluate =>
    match principal.roles.lookup r with
    | none => .err (.InvalidRole r)
    | some role =>
      let rulesWithAll := role.rules.filter (fun rule => rule.2.resources == some 1)
      if role.name == ADMIN_ROLE_NAME then
        if owner.account.uuid == role.account then
          .allow
        else if principal.account.isOperator && principal.account.uuid == role.account then
          .allow
        else
          roleLoop principal owner resourceTags rest matchingRoles rulesToEvaluate
      else if resourceTags.contains r then
        roleLoop principal owner resourceTags rest (matchingRoles ++ [r])
          (rulesToEvaluate ++ role.rules.map (fun rule => rule.2))
      else if rulesWithAll.length > 0 then
        roleLoop principal owner resourceTags rest (matchingRoles ++ [r])
          (rulesToEvaluate ++ rulesWithAll.map (fun rule => rule.2))
      else
        roleLoop principal owner resourceTags rest matchingRoles rulesToEvaluate

/-- Embeds `MahiClient.prototype.authorize` (the current revision).  The aperture
evaluator is a function-valued collaborator; a thrown error becomes
`Except.error`. -/
def authorize (evaluator : List ParsedRule → EvalContext → Bool)
    (principal : Principal) (action : String) (resource : Resource)
    (conditions : Conditions) : Except AuthError Bool :=
  let resourceTags := resource.roles
  let owner := resource.owner
  let activeRoles := conditions.activeRoles
  let context : EvalContext := { action := action, conditions := conditions, resource := "" }
  if principal.user.isNone &&
      (owner.account.uuid == principal.account.uuid || principal.account.isOperator) then
    .ok true
  else if !principal.account.approved_for_provisioning && !principal.account.isOperator then
    .error (.AccountBlocked principal.account.login)
  else if !resource.owner.account.approved_for_provisioning &&
      !resource.owner.account.isOperator && !principal.account.isOperator then
    .error (.AccountBlocked resource.owner.account.login)
  else
    match roleLoop principal owner resourceTags activeRoles [] [] with
    | .allow => .ok true
    | .err e => .error e
    | .done matchingRoles rulesToEvaluate =>
      if matchingRoles.length == 0 then
        .error .NoMatchingRoleTag
      else if rulesToEvaluate.length == 0 then
        .error .RulesEvaluationFailed
      else
        let ok := evaluator rulesToEvaluate context
        if !ok then .error .RulesEvaluationFailed
        else .ok ok

deriving instance DecidableEq for Except

/-- A transport-level error, as surfaced by the restify JSON client.
`restCode` is the machine-readable kind (e.g. "UserDoesNotExist"). -/
structure TransportErr where
  restCode : String
  message : String
deriving DecidableEq

/-- An identity blob as returned on the user-fetch paths: the account part
and the optional user part (the fields the cache back-fill reads). -/
structure Blob where
  account : Account
  user : Option User
deriving DecidableEq

/-- Outcome of one `_get` call: the value delivered to the callback, the
auth-cache writes performed, and whether a network fetch was issued. -/
structure GetOutcome where
  result : Except TransportErr Blob
  authWrites : List (String × Blob)
  httpIssued : Bool
deriving DecidableEq

/-- Embeds `MahiClient.prototype._get` (current revision): serve from the auth
cache when present; otherwise fetch over HTTP, propagate any error
unchanged without caching, and cache the blob on success.  The auth cache
is the read view `authCache`; the transport is the collaborator `http`. -/
def _get (authCache : String → Option Blob) (http : String → Except TransportErr Blob)
    (path : String) : GetOutcome :=
  match authCache path with
  | some cached => { result := .ok cached, authWrites := [], httpIssued := false }
  | none =>
    match http path with
    | .error e => { result := .error e, authWrites := [], httpIssued := true }
    | .ok obj => { result := .ok obj, authWrites := [(path, obj)], httpIssued := true }

/-- The path built by `getUser`:
`sprintf('/users?account=%s&login=%s&fallback=%s', account, user, fallback)`. -/
def getUserPath (user account : String) (fallback : Bool) : String :=
  "/users?account=" ++ account ++ "&login=" ++ user ++ "&fallback=" ++
    (if fallback then "true" else "false")

/-- Outcome of a user fetch: callback value, auth-cache writes,
translation-cache writes, and whether a network fetch was issued. -/
structure FetchOutcome where
  result : Except TransportErr Blob
  authWrites : List (String × Blob)
  transWrites : List (String × String)
  httpIssued : Bool
deriving DecidableEq

/-- Embeds `MahiClient.prototype.getUser` (current revision): `_get` on the
`/users?...&fallback=...` path; on error, pass the error through with no
translation writes; on success, back-fill the translation cache with the
account (and, when present, user) uuid↔login entries. -/
def getUser (authCache : String → Option Blob) (http : String → Except TransportErr Blob)
    (user account : String) (fallback : Bool) : FetchOutcome :=
  let path := getUserPath user account fallback
  let g := _get authCache http path
  match g.result with
  | .error e =>
    { result := .error e, authWrites := g.authWrites, transWrites := [],
      httpIssued := g.httpIssued }
  | .ok info =>
    let accountWrites := [("/uuid/" ++ info.account.uuid, info.account.login),
                          ("/account/" ++ info.account.login, info.account.uuid)]
    let userWrites := match info.user with
      | some u => [("/uuid/" ++ u.uuid, u.login), ("/user/" ++ u.login, u.uuid)]
      | none => []
    { result := .ok info, authWrites := g.authWrites,
      transWrites := accountWrites ++ userWrites, httpIssued := g.httpIssued }

/-- The path built by `getUserById`: `sprintf('/users/%s', uuid)`. -/
def getUserByIdPath (uuid : String) : String := "/users/" ++ uuid

/-- Outcome of `getUserById`.  The source invokes `_get` on the same path
twice — once with the caller's callback directly, once with the
translation back-filling wrapper `gotUser` — so the callback fires twice.
`secondCb = none` records that `gotUser` aborted on a blob with no `user`
field (the raw field access would throw) after the account writes. -/
structure ByIdOutcome where
  firstCb : Except TransportErr Blob
  secondCb : Option (Except TransportErr Blob)
  transWrites : List (String × String)
  httpCalls : Nat
deriving DecidableEq

/-- Embeds `MahiClient.prototype.getUserById` (current revision):
`self._get(path, cb); self._get(path, gotUser)` — the fetch is performed
twice and the callback runs twice.  Both `_get` calls observe the same
cache state because the first call's cache write, if any, happens only
when its network fetch completes, after the second call was issued. -/
def getUserById (authCache : String → Option Blob) (http : String → Except TransportErr Blob)
    (uuid : String) : ByIdOutcome :=
  let path := getUserByIdPath uuid
  let g1 := _get authCache http path
  let g2 := _get authCache http path
  let httpCalls := (if g1.httpIssued then 1 else 0) + (if g2.httpIssued then 1 else 0)
  match g2.result with
  | .error e =>
    { firstCb := g1.result, secondCb := some (.error e), transWrites := [],
      httpCalls := httpCalls }
  | .ok info =>
    match info.user with
    | none =>
      { firstCb := g1.result, secondCb := none,
        transWrites := [("/uuid/" ++ info.account.uuid, info.account.login),
                        ("/account/" ++ info.account.login, info.account.uuid)],
        httpCalls := httpCalls }
    | some u =>
      { firstCb := g1.result, secondCb := some (.ok info),
        transWrites := [("/uuid/" ++ info.account.uuid, info.account.login),
                        ("/account/" ++ info.account.login, info.account.uuid),
                        ("/uuid/" ++ u.uuid, u.login),
                        ("/user/" ++ u.login, u.uuid)],
        httpCalls := httpCalls }

/-- The `opts.uuids.forEach` partitioning pass of `getName`: split the
requested uuids into the uncached ones (in order) and the cached
uuid→name hits (in order), reading the translation cache at `/uuid/<id>`. -/
def getNamePartition (cache : String → Option String) :
    List String → List String × List (String × String)
  | [] => ([], [])
  | u :: rest =>
    let p := getNamePartition cache rest
    match cache ("/uuid/" ++ u) with
    | none => (u :: p.1, p.2)
    | some name => (p.1, (u, name) :: p.2)

/-- JavaScript object assignment `m[k] = v` on an association list:
update in place when the key exists, append otherwise. -/
def objSet (m : List (String × String)) (k v : String) : List (String × String) :=
  if m.any (fun p => p.1 == k) then
    m.map (fun p => if p.1 == k then (k, v) else p)
  else m ++ [(k, v)]

/-- The `Object.keys(obj).forEach` merge of the batch response into the
`translations` object inside `getName`. -/
def mergeResponse (translations : List (String × String)) (obj : List (String × String)) :
    List (String × String) :=
  obj.foldl (fun acc q => objSet acc q.1 q.2) translations

/-- Outcome of `getName`: the callback value, the uuid list of the single
batched fetch (`none` when no network call was made), and the
translation-cache writes. -/
structure GetNameOutcome where
  result : Except TransportErr (List (String × String))
  fetched : Option (List String)
  transWrites : List (String × String)
deriving DecidableEq

/-- Embeds `MahiClient.prototype.getName` (current revision): partition into
cached and uncached; with nothing uncached, complete with the cache hits
and no network call; otherwise issue one batched GET for exactly the
uncached uuids, and on success write every returned pair into the
translation cache and complete with the merged mapping. -/
def getName (cache : String → Option String)
    (server : List String → Except TransportErr (List (String × String)))
    (uuids : List String) : GetNameOutcome :=
  let p := getNamePartition cache uuids
  let uncached := p.1
  let translations := p.2
  if uncached.length == 0 then
    { result := .ok translations, fetched := none, transWrites := [] }
  else
    match server uncached with
    | .error e => { result := .error e, fetched := some uncached, transWrites := [] }
    | .ok obj =>
      { result := .ok (mergeResponse translations obj), fetched := some uncached,
        transWrites := obj.map (fun q => ("/uuid/" ++ q.1, q.2)) }

/-- Helper: the role loop splits over list append — processing `xs ++ ys`
first processes `xs`, and continues into `ys` only when `xs` fell through
with accumulators (no early allow, no error). -/
theorem roleLoop_append (p owner : Principal) (tags : List String) (xs ys : List String)
    (m : List String) (rs : List ParsedRule) :
    roleLoop p owner tags (xs ++ ys) m rs =
      match roleLoop p owner tags xs m rs with
      | .done m2 rs2 => roleLoop p owner tags ys m2 rs2
      | other => other := by
  induction xs generalizing m rs with
  | nil => simp [roleLoop]
  | cons x xs ih =>
    simp only [List.cons_append, roleLoop]
    cases hx : p.roles.lookup x with
    | none => simp
    | some role =>
      simp only
      split_ifs with h1 h2 h3 h4 h5
      · rfl
      · rfl
      · exact ih _ _
      · exact ih _ _
      · exact ih _ _
      · exact ih _ _

/-- Helper: the role loop returns the early allow when the head active
role resolves to an administrator role whose account matches the resource
owner, or whose account matches an operator principal's own account. -/
theorem roleLoop_admin_allow (p owner : Principal) (tags : List String) (r : String)
    (rest : List String) (ms : List String) (rls : List ParsedRule) (role : Role)
    (hrole : p.roles.lookup r = some role)
    (hadmin : role.name = ADMIN_ROLE_NAME)
    (hcond : owner.account.uuid = role.account ∨
      (p.account.isOperator = true ∧ p.account.uuid = role.account)) :
    roleLoop p owner tags (r :: rest) ms rls = .allow := by
  unfold roleLoop
  simp only [hrole]
  by_cases h1 : owner.account.uuid = role.account
  · simp [hadmin, h1]
  · rcases hcond with hc | ⟨hop, huuid⟩
    · exact absurd hc h1
    · simp [hadmin, h1, hop, huuid]

/-- Helper: the role loop skips an administrator role whose account
matches neither the resource owner nor an operator principal's account. -/
theorem roleLoop_admin_skip (p owner : Principal) (tags : List String) (r : String)
    (rest : List String) (ms : List String) (rls : List ParsedRule) (role : Role)
    (hrole : p.roles.lookup r = some role)
    (hadmin : role.name = ADMIN_ROLE_NAME)
    (hno : owner.account.uuid ≠ role.account)
    (hnop : ¬(p.account.isOperator = true ∧ p.account.uuid = role.account)) :
    roleLoop p owner tags (r :: rest) ms rls = roleLoop p owner tags rest ms rls := by
  conv_lhs => unfold roleLoop
  simp only [hrole]
  have h2 : (p.account.isOperator && p.account.uuid == role.account) = false := by
    cases hop : p.account.isOperator with
    | false => simp
    | true =>
      have : p.account.uuid ≠ role.account := fun hu => hnop ⟨hop, hu⟩
      simp [this]
  simp [hadmin, hno, h2]

/-- Helper: when the self/operator bypass does not fire and neither
blocked-account check fires, authorize is the role-loop dispatch followed
by the NoMatchingRoleTag / RulesEvaluationFailed / evaluator steps. -/
theorem authorize_loop_eq (ev : List ParsedRule → EvalContext → Bool)
    (principal : Principal) (action : String) (resource : Resource) (conditions : Conditions)
    (hbypass : (principal.user.isNone &&
      (resource.owner.account.uuid == principal.account.uuid ||
        principal.account.isOperator)) = false)
    (hb1 : (!principal.account.approved_for_provisioning &&
      !principal.account.isOperator) = false)
    (hb2 : (!resource.owner.account.approved_for_provisioning &&
      !resource.owner.account.isOperator && !principal.account.isOperator) = false) :
    authorize ev principal action resource conditions =
      match roleLoop principal resource.owner resource.roles conditions.activeRoles [] [] with
      | .allow => .ok true
      | .err e => .error e
      | .done matchingRoles rulesToEvaluate =>
        if matchingRoles.length == 0 then .error .NoMatchingRoleTag
        else if rulesToEvaluate.length == 0 then .error .RulesEvaluationFailed
        else if !(ev rulesToEvaluate
            { action := action, conditions := conditions, resource := "" }) then
          .error .RulesEvaluationFailed
        else .ok (ev rulesToEvaluate
          { action := action, conditions := conditions, resource := "" }) := by
  unfold authorize
  dsimp only
  rw [if_neg (by simp [hbypass]), if_neg (by simp [hb1]), if_neg (by simp [hb2])]

/-- C2: when the role loop reaches an active role naming the
administrator role, authorize allows — independently of the evaluator —
if the resource owner's account is the role's account, or the principal
is an operator on the role's own account; an administrator role on any
other account is skipped, contributing nothing to the loop state. -/
theorem authorize_admin_role (principal : Principal) (action : String) (resource : Resource)
    (conditions : Conditions) (pre rest : List String) (r : String) (role : Role)
    (hactive : conditions.activeRoles = pre ++ r :: rest)
    (hrole : principal.roles.lookup r = some role)
    (hadmin : role.name = ADMIN_ROLE_NAME)
    (hbypass : (principal.user.isNone &&
      (resource.owner.account.uuid == principal.account.uuid ||
        principal.account.isOperator)) = false)
    (hb1 : (!principal.account.approved_for_provisioning &&
      !principal.account.isOperator) = false)
    (hb2 : (!resource.owner.account.approved_for_provisioning &&
      !resource.owner.account.isOperator && !principal.account.isOperator) = false)
    (hpre : ∃ m2 rs2,
      roleLoop principal resource.owner resource.roles pre [] [] = .done m2 rs2) :
    ((resource.owner.account.uuid = role.account ∨
      (principal.account.isOperator = true ∧ principal.account.uuid = role.account)) →
      ∀ ev, authorize ev principal action resource conditions = .ok true) ∧
    (resource.owner.account.uuid ≠ role.account →
      ¬(principal.account.isOperator = true ∧ principal.account.uuid = role.account) →
      ∀ ms rls, roleLoop principal resource.owner resource.roles (r :: rest) ms rls =
        roleLoop principal resource.owner resource.roles rest ms rls) := by
  obtain ⟨m2, rs2, hpre⟩ := hpre
  constructor
  · intro hcond ev
    rw [authorize_loop_eq ev principal action resource conditions hbypass hb1 hb2]
    simp only [hactive, roleLoop_append, hpre,
      roleLoop_admin_allow principal resource.owner resource.roles r rest m2 rs2 role
        hrole hadmin hcond]
  · intro hno hnop ms rls
    exact roleLoop_admin_skip principal resource.owner resource.roles r rest ms rls role
      hrole hadmin hno hnop

/-- C2 witness: a user principal on account A holding the administrator
role of account A is allowed on a resource owned by account A, under an
evaluator that always rejects and with the role carrying no rules. -/
theorem authorize_admin_role_witness :
    authorize (fun _ _ => false)
      { account := { uuid := "A", login := "alice",
                     approved_for_provisioning := true, isOperator := false },
        user := some { uuid := "U", login := "u", account := "A" },
        roles := [("R1", { name := "administrator", uuid := "R1", account := "A",
                           rules := [] })] }
      "getobject"
      { owner := { account := { uuid := "A", login := "alice",
                                approved_for_provisioning := true, isOperator := false },
                   user := none, roles := [] },
        roles := [] }
      { activeRoles := ["R1"], other := [] } = .ok true :=
  (authorize_admin_role
    { account := { uuid := "A", login := "alice",
                   approved_for_provisioning := true, isOperator := false },
      user := some { uuid := "U", login := "u", account := "A" },
      roles := [("R1", { name := "administrator", uuid := "R1", account := "A",
                         rules := [] })] }
    "getobject"
    { owner := { account := { uuid := "A", login := "alice",
                              approved_for_provisioning := true, isOperator := false },
                 user := none, roles := [] },
      roles := [] }
    { activeRoles := ["R1"], other := [] }
    [] [] "R1"
    { name := "administrator", uuid := "R1", account := "A", rules := [] }
    rfl rfl rfl (by decide) (by decide) (by decide) ⟨[], [], rfl⟩).1
    (Or.inl rfl) (fun _ _ => false)

/-- C3 counterexample: with a bare-account principal that owns the
resource, authorize returns allow even though activeRoles contains an id
that is not among the principal's roles — the claimed InvalidRole failure
does not happen on the bypass path. -/
theorem authorize_invalid_role_cex :
    List.lookup "badrole"
      ({ account := { uuid := "A", login := "alice",
                      approved_for_provisioning := true, isOperator := false },
         user := none, roles := [] } : Principal).roles = none ∧
    "badrole" ∈ ({ activeRoles := ["badrole"], other := [] } : Conditions).activeRoles ∧
    authorize (fun _ _ => false)
      { account := { uuid := "A", login := "alice",
                     approved_for_provisioning := true, isOperator := false },
        user := none, roles := [] }
      "getobject"
      { owner := { account := { uuid := "A", login := "alice",
                                approved_for_provisioning := true, isOperator := false },
                   user := none, roles := [] },
        roles := [] }
      { activeRoles := ["badrole"], other := [] } = .ok true :=
  ⟨rfl, by simp, rfl⟩

/-- C3 amended: when the call reaches the role loop (the bypass does not
allow, neither blocked check fires) and activeRoles splits as
pre ++ r :: rest with r absent from the principal's roles and pre
completing without an administrator allow or error, authorize fails with
InvalidRole naming r — for every evaluator and every tail rest. -/
theorem authorize_invalid_role (ev : List ParsedRule → EvalContext → Bool)
    (principal : Principal) (action : String) (resource : Resource) (conditions : Conditions)
    (pre rest : List String) (r : String)
    (hactive : conditions.activeRoles = pre ++ r :: rest)
    (hinvalid : principal.roles.lookup r = none)
    (hbypass : (principal.user.isNone &&
      (resource.owner.account.uuid == principal.account.uuid ||
        principal.account.isOperator)) = false)
    (hb1 : (!principal.account.approved_for_provisioning &&
      !principal.account.isOperator) = false)
    (hb2 : (!resource.owner.account.approved_for_provisioning &&
      !resource.owner.account.isOperator && !principal.account.isOperator) = false)
    (hpre : ∃ m2 rs2,
      roleLoop principal resource.owner resource.roles pre [] [] = .done m2 rs2) :
    authorize ev principal action resource conditions = .error (.InvalidRole r) := by
  obtain ⟨m2, rs2, hpre⟩ := hpre
  have key : roleLoop principal resource.owner resource.roles (r :: rest) m2 rs2 =
      .err (.InvalidRole r) := by
    unfold roleLoop
    simp [hinvalid]
  rw [authorize_loop_eq ev principal action resource conditions hbypass hb1 hb2]
  simp only [hactive, roleLoop_append, hpre, key]

/-- C3 witness: a user principal with no roles and activeRoles equal to
the single unknown id fails with InvalidRole naming that id. -/
theorem authorize_invalid_role_witness :
    authorize (fun _ _ => true)
      { account := { uuid := "A", login := "alice",
                     approved_for_provisioning := true, isOperator := false },
        user := some { uuid := "U", login := "u", account := "A" }, roles := [] }
      "getobject"
      { owner := { account := { uuid := "B", login := "bob",
                                approved_for_provisioning := true, isOperator := false },
                   user := none, roles := [] },
        roles := [] }
      { activeRoles := ["badrole"], other := [] } = .error (.InvalidRole "badrole") :=
  authorize_invalid_role (fun _ _ => true)
    { account := { uuid := "A", login := "alice",
                   approved_for_provisioning := true, isOperator := false },
      user := some { uuid := "U", login := "u", account := "A" }, roles := [] }
    "getobject"
    { owner := { account := { uuid := "B", login := "bob",
                              approved_for_provisioning := true, isOperator := false },
                 user := none, roles := [] },
      roles := [] }
    { activeRoles := ["badrole"], other := [] }
    [] [] "badrole" rfl rfl (by decide) (by decide) (by decide) ⟨[], [], rfl⟩

/-- C4: a non-administrator active role that is not tagged on the
resource but carries at least one wildcard-scoped rule is recorded as
matching and contributes exactly its wildcard-scoped rules (never the
tag-scoped ones); a non-administrator active role tagged on the resource
is recorded as matching and contributes all of its rules. -/
theorem roleLoop_wildcard_scoping (p owner : Principal) (tags : List String)
    (r : String) (rest : List String) (ms : List String) (rls : List ParsedRule) (role : Role)
    (hrole : p.roles.lookup r = some role)
    (hadmin : role.name ≠ ADMIN_ROLE_NAME) :
    (tags.contains r = false →
      role.rules.filter (fun rule => rule.2.resources == some 1) ≠ [] →
      roleLoop p owner tags (r :: rest) ms rls =
        roleLoop p owner tags rest (ms ++ [r])
          (rls ++ (role.rules.filter (fun rule => rule.2.resources == some 1)).map
            (fun rule => rule.2))) ∧
    (tags.contains r = true →
      roleLoop p owner tags (r :: rest) ms rls =
        roleLoop p owner tags rest (ms ++ [r])
          (rls ++ role.rules.map (fun rule => rule.2))) := by
  constructor
  · intro htag hw
    conv_lhs => unfold roleLoop
    simp only [hrole]
    have h2 : 0 < (role.rules.filter (fun rule => rule.2.resources == some 1)).length := by
      cases hl : role.rules.filter (fun rule => rule.2.resources == some 1) with
      | nil => exact absurd hl hw
      | cons a l => simp [hl]
    have h3 : ¬ r ∈ tags := by simpa using htag
    simp [hadmin, h3, h2]
  · intro htag
    conv_lhs => unfold roleLoop
    simp only [hrole]
    have h3 : r ∈ tags := by simpa using htag
    simp [hadmin, h3]

/-- C4 witness: a role with one wildcard rule and one tag-scoped rule,
not tagged on the resource, contributes only the wildcard rule; the same
role tagged on the resource contributes both rules. -/
theorem roleLoop_wildcard_scoping_witness :
    roleLoop
      { account := { uuid := "A", login := "alice",
                     approved_for_provisioning := true, isOperator := false },
        user := none,
        roles := [("R2", { name := "devread", uuid := "R2", account := "A",
                           rules := [("w", { resources := some 1, body := "wild" }),
                                     ("t", { resources := none, body := "tag" })] })] }
      { account := { uuid := "B", login := "bob",
                     approved_for_provisioning := true, isOperator := false },
        user := none, roles := [] }
      [] ["R2"] [] [] =
      roleLoop
        { account := { uuid := "A", login := "alice",
                       approved_for_provisioning := true, isOperator := false },
          user := none,
          roles := [("R2", { name := "devread", uuid := "R2", account := "A",
                             rules := [("w", { resources := some 1, body := "wild" }),
                                       ("t", { resources := none, body := "tag" })] })] }
        { account := { uuid := "B", login := "bob",
                       approved_for_provisioning := true, isOperator := false },
          user := none, roles := [] }
        [] [] ["R2"] [{ resources := some 1, body := "wild" }] ∧
    roleLoop
      { account := { uuid := "A", login := "alice",
                     approved_for_provisioning := true, isOperator := false },
        user := none,
        roles := [("R2", { name := "devread", uuid := "R2", account := "A",
                           rules := [("w", { resources := some 1, body := "wild" }),
                                     ("t", { resources := none, body := "tag" })] })] }
      { account := { uuid := "B", login := "bob",
                     approved_for_provisioning := true, isOperator := false },
        user := none, roles := [] }
      ["R2"] ["R2"] [] [] =
      roleLoop
        { account := { uuid := "A", login := "alice",
                       approved_for_provisioning := true, isOperator := false },
          user := none,
          roles := [("R2", { name := "devread", uuid := "R2", account := "A",
                             rules := [("w", { resources := some 1, body := "wild" }),
                                       ("t", { resources := none, body := "tag" })] })] }
        { account := { uuid := "B", login := "bob",
                       approved_for_provisioning := true, isOperator := false },
          user := none, roles := [] }
        ["R2"] []
        ["R2"] [{ resources := some 1, body := "wild" }, { resources := none, body := "tag" }] := by
  constructor
  · exact ((roleLoop_wildcard_scoping
      { account := { uuid := "A", login := "alice",
                     approved_for_provisioning := true, isOperator := false },
        user := none,
        roles := [("R2", { name := "devread", uuid := "R2", account := "A",
                           rules := [("w", { resources := some 1, body := "wild" }),
                                     ("t", { resources := none, body := "tag" })] })] }
      { account := { uuid := "B", login := "bob",
                     approved_for_provisioning := true, isOperator := false },
        user := none, roles := [] }
      [] "R2" [] [] []
      { name := "devread", uuid := "R2", account := "A",
        rules := [("w", { resources := some 1, body := "wild" }),
                  ("t", { resources := none, body := "tag" })] }
      rfl (by decide)).1 rfl (by decide)).trans (by decide)
  · exact ((roleLoop_wildcard_scoping
      { account := { uuid := "A", login := "alice",
                     approved_for_provisioning := true, isOperator := false },
        user := none,
        roles := [("R2", { name := "devread", uuid := "R2", account := "A",
                           rules := [("w", { resources := some 1, body := "wild" }),
                                     ("t", { resources := none, body := "tag" })] })] }
      { account := { uuid := "B", login := "bob",
                     approved_for_provisioning := true, isOperator := false },
        user := none, roles := [] }
      ["R2"] "R2" [] [] []
      { name := "devread", uuid := "R2", account := "A",
        rules := [("w", { resources := some 1, body := "wild" }),
                  ("t", { resources := none, body := "tag" })] }
      rfl (by decide)).2 rfl).trans (by decide)

/-- C5: when the role loop completes without an administrator allow,
authorize fails with NoMatchingRoleTag if no role matched, fails with
RulesEvaluationFailed if roles matched but the evaluation set is empty,
and otherwise delegates to the evaluator on the evaluation set and
the action/conditions context, failing with RulesEvaluationFailed exactly
when the evaluator rejects and allowing otherwise. -/
theorem authorize_after_loop (ev : List ParsedRule → EvalContext → Bool)
    (principal : Principal) (action : String) (resource : Resource) (conditions : Conditions)
    (ms : List String) (rls : List ParsedRule)
    (hbypass : (principal.user.isNone &&
      (resource.owner.account.uuid == principal.account.uuid ||
        principal.account.isOperator)) = false)
    (hb1 : (!principal.account.approved_for_provisioning &&
      !principal.account.isOperator) = false)
    (hb2 : (!resource.owner.account.approved_for_provisioning &&
      !resource.owner.account.isOperator && !principal.account.isOperator) = false)
    (hloop : roleLoop principal resource.owner resource.roles conditions.activeRoles [] [] =
      .done ms rls) :
    (ms = [] →
      authorize ev principal action resource conditions = .error .NoMatchingRoleTag) ∧
    (ms ≠ [] → rls = [] →
      authorize ev principal action resource conditions = .error .RulesEvaluationFailed) ∧
    (ms ≠ [] → rls ≠ [] →
      ev rls { action := action, conditions := conditions, resource := "" } = false →
      authorize ev principal action resource conditions = .error .RulesEvaluationFailed) ∧
    (ms ≠ [] → rls ≠ [] →
      ev rls { action := action, conditions := conditions, resource := "" } = true →
      authorize ev principal action resource conditions = .ok true) := by
  rw [authorize_loop_eq ev principal action resource conditions hbypass hb1 hb2]
  simp only [hloop]
  refine ⟨?_, ?_, ?_, ?_⟩
  · intro hms
    simp [hms]
  · intro hms hrls
    simp [List.length_eq_zero, hms, hrls]
  · intro hms hrls hev
    simp [List.length_eq_zero, hms, hrls, hev]
  · intro hms hrls hev
    simp [List.length_eq_zero, hms, hrls, hev]

/-- C5 witness: a tagged non-admin role with one rule under a rejecting
evaluator fails with RulesEvaluationFailed, under an accepting evaluator
is allowed, and an empty activeRoles fails with NoMatchingRoleTag. -/
theorem authorize_after_loop_witness :
    authorize (fun _ _ => false)
      { account := { uuid := "A", login := "alice",
                     approved_for_provisioning := true, isOperator := false },
        user := some { uuid := "U", login := "u", account := "A" },
        roles := [("R2", { name := "devread", uuid := "R2", account := "A",
                           rules := [("w", { resources := some 1, body := "wild" })] })] }
      "getobject"
      { owner := { account := { uuid := "B", login := "bob",
                                approved_for_provisioning := true, isOperator := false },
                   user := none, roles := [] },
        roles := ["R2"] }
      { activeRoles := ["R2"], other := [] } = .error .RulesEvaluationFailed ∧
    authorize (fun _ _ => true)
      { account := { uuid := "A", login := "alice",
                     approved_for_provisioning := true, isOperator := false },
        user := some { uuid := "U", login := "u", account := "A" },
        roles := [("R2", { name := "devread", uuid := "R2", account := "A",
                           rules := [("w", { resources := some 1, body := "wild" })] })] }
      "getobject"
      { owner := { account := { uuid := "B", login := "bob",
                                approved_for_provisioning := true, isOperator := false },
                   user := none, roles := [] },
        roles := ["R2"] }
      { activeRoles := ["R2"], other := [] } = .ok true ∧
    authorize (fun _ _ => true)
      { account := { uuid := "A", login := "alice",
                     approved_for_provisioning := true, isOperator := false },
        user := some { uuid := "U", login := "u", account := "A" },
        roles := [("R2", { name := "devread", uuid := "R2", account := "A",
                           rules := [("w", { resources := some 1, body := "wild" })] })] }
      "getobject"
      { owner := { account := { uuid := "B", login := "bob",
                                approved_for_provisioning := true, isOperator := false },
                   user := none, roles := [] },
        roles := ["R2"] }
      { activeRoles := [], other := [] } = .error .NoMatchingRoleTag := by
  refine ⟨?_, ?_, ?_⟩
  · exact (authorize_after_loop (fun _ _ => false)
      { account := { uuid := "A", login := "alice",
                     approved_for_provisioning := true, isOperator := false },
        user := some { uuid := "U", login := "u", account := "A" },
        roles := [("R2", { name := "devread", uuid := "R2", account := "A",
                           rules := [("w", { resources := some 1, body := "wild" })] })] }
      "getobject"
      { owner := { account := { uuid := "B", login := "bob",
                                approved_for_provisioning := true, isOperator := false },
                   user := none, roles := [] },
        roles := ["R2"] }
      { activeRoles := ["R2"], other := [] }
      ["R2"] [{ resources := some 1, body := "wild" }]
      (by decide) (by decide) (by decide) (by decide)).2.2.1
      (by decide) (by decide) rfl
  · exact (authorize_after_loop (fun _ _ => true)
      { account := { uuid := "A", login := "alice",
                     approved_for_provisioning := true, isOperator := false },
        user := some { uuid := "U", login := "u", account := "A" },
        roles := [("R2", { name := "devread", uuid := "R2", account := "A",
                           rules := [("w", { resources := some 1, body := "wild" })] })] }
      "getobject"
      { owner := { account := { uuid := "B", login := "bob",
                                approved_for_provisioning := true, isOperator := false },
                   user := none, roles := [] },
        roles := ["R2"] }
      { activeRoles := ["R2"], other := [] }
      ["R2"] [{ resources := some 1, body := "wild" }]
      (by decide) (by decide) (by decide) (by decide)).2.2.2
      (by decide) (by decide) rfl
  · exact (authorize_after_loop (fun _ _ => true)
      { account := { uuid := "A", login := "alice",
                     approved_for_provisioning := true, isOperator := false },
        user := some { uuid := "U", login := "u", account := "A" },
        roles := [("R2", { name := "devread", uuid := "R2", account := "A",
                           rules := [("w", { resources := some 1, body := "wild" })] })] }
      "getobject"
      { owner := { account := { uuid := "B", login := "bob",
                                approved_for_provisioning := true, isOperator := false },
                   user := none, roles := [] },
        roles := ["R2"] }
      { activeRoles := [], other := [] }
      [] []
      (by decide) (by decide) (by decide) (by decide)).1 rfl

/-- C1: an authorize call whose principal has no user component and whose
account owns the resource or is an operator returns allow, for every
evaluator, every activeRoles content, and every provisioning/blocked
status of the accounts involved. -/
theorem authorize_self_operator_bypass (ev : List ParsedRule → EvalContext → Bool)
    (principal : Principal) (action : String) (resource : Resource) (conditions : Conditions)
    (huser : principal.user = none)
    (h : resource.owner.account.uuid = principal.account.uuid ∨
      principal.account.isOperator = true) :
    authorize ev principal action resource conditions = .ok true := by
  unfold authorize
  rcases h with h | h
  · simp [huser, h]
  · simp [huser, h]

/-- C1 witness: a concrete bare-account principal owning the resource,
with empty roles, unapproved account, and an evaluator that always
rejects, is still allowed. -/
theorem authorize_self_operator_bypass_witness :
    authorize (fun _ _ => false)
      { account := { uuid := "A", login := "alice",
                     approved_for_provisioning := false, isOperator := false },
        user := none, roles := [] }
      "getobject"
      { owner := { account := { uuid := "A", login := "alice",
                                approved_for_provisioning := false, isOperator := false },
                   user := none, roles := [] },
        roles := [] }
      { activeRoles := ["nonexistent-role"], other := [] } = .ok true :=
  authorize_self_operator_bypass _ _ _ _ _ rfl (Or.inl rfl)

/-- C6: once the self/operator bypass does not allow, an unapproved
non-operator principal account fails with AccountBlocked naming the
principal's login; otherwise an unapproved non-operator owner account
(with a non-operator principal) fails with AccountBlocked naming the
owner's login.  Both failures are independent of the roles, active roles,
and evaluator, i.e. they precede the role loop. -/
theorem authorize_blocked_check (ev : List ParsedRule → EvalContext → Bool)
    (principal : Principal) (action : String) (resource : Resource) (conditions : Conditions)
    (hbypass : (principal.user.isNone &&
      (resource.owner.account.uuid == principal.account.uuid ||
        principal.account.isOperator)) = false) :
    (principal.account.approved_for_provisioning = false →
      principal.account.isOperator = false →
      authorize ev principal action resource conditions =
        .error (.AccountBlocked principal.account.login)) ∧
    (principal.account.approved_for_provisioning = true →
      resource.owner.account.approved_for_provisioning = false →
      resource.owner.account.isOperator = false →
      principal.account.isOperator = false →
      authorize ev principal action resource conditions =
        .error (.AccountBlocked resource.owner.account.login)) := by
  constructor
  · intro h1 h2
    unfold authorize
    simp only [hbypass]
    simp [h1, h2]
  · intro h1 h2 h3 h4
    unfold authorize
    simp only [hbypass]
    simp [h1, h2, h3, h4]

/-- C6 witness: a user-bearing principal on an unapproved non-operator
account is blocked with its own login; the same principal approved, when
the owner account is unapproved and neither is an operator, is blocked
with the owner's login. -/
theorem authorize_blocked_check_witness :
    authorize (fun _ _ => true)
      { account := { uuid := "A", login := "alice",
                     approved_for_provisioning := false, isOperator := false },
        user := some { uuid := "U", login := "u", account := "A" }, roles := [] }
      "getobject"
      { owner := { account := { uuid := "B", login := "bob",
                                approved_for_provisioning := true, isOperator := false },
                   user := none, roles := [] },
        roles := [] }
      { activeRoles := [], other := [] } = .error (.AccountBlocked "alice") ∧
    authorize (fun _ _ => true)
      { account := { uuid := "A", login := "alice",
                     approved_for_provisioning := true, isOperator := false },
        user := some { uuid := "U", login := "u", account := "A" }, roles := [] }
      "getobject"
      { owner := { account := { uuid := "B", login := "bob",
                                approved_for_provisioning := false, isOperator := false },
                   user := none, roles := [] },
        roles := [] }
      { activeRoles := [], other := [] } = .error (.AccountBlocked "bob") :=
  ⟨(authorize_blocked_check _ _ _ _ _ (by decide)).1 rfl rfl,
   (authorize_blocked_check _ _ _ _ _ (by decide)).2 rfl rfl rfl rfl⟩

/-- Helper: the partitioning pass of getName computes the filter of
uncached uuids and the filterMap of cached uuid→name hits, in order. -/
theorem getNamePartition_eq (cache : String → Option String) (uuids : List String) :
    getNamePartition cache uuids =
      (uuids.filter (fun u => (cache ("/uuid/" ++ u)).isNone),
       uuids.filterMap (fun u => (cache ("/uuid/" ++ u)).map (fun n => (u, n)))) := by
  induction uuids with
  | nil => rfl
  | cons u rest ih =>
    simp only [getNamePartition, ih]
    cases h : cache ("/uuid/" ++ u) <;> simp [h]

/-- Helper: assigning an absent key on a JavaScript-style object appends. -/
theorem objSet_of_notMem (m : List (String × String)) (k v : String)
    (h : m.any (fun p => p.1 == k) = false) : objSet m k v = m ++ [(k, v)] := by
  simp only [objSet, h]
  simp

/-- Helper: merging a response whose keys are fresh and pairwise distinct
into the translations object appends the response pairs in order. -/
theorem mergeResponse_disjoint (obj translations : List (String × String))
    (hdisj : ∀ q ∈ obj, translations.any (fun p => p.1 == q.1) = false)
    (hnodup : (obj.map Prod.fst).Nodup) :
    mergeResponse translations obj = translations ++ obj := by
  induction obj generalizing translations with
  | nil => simp [mergeResponse]
  | cons q rest ih =>
    have hnodup2 : q.1 ∉ rest.map Prod.fst ∧ (rest.map Prod.fst).Nodup := by
      rw [List.map_cons, List.nodup_cons] at hnodup
      exact hnodup
    have hd2 : ∀ q2 ∈ rest,
        (translations ++ [(q.1, q.2)]).any (fun p => p.1 == q2.1) = false := by
      intro q2 hq2
      have h1 := hdisj q2 (List.mem_cons_of_mem q hq2)
      have h2 : (q.1 == q2.1) = false := by
        apply beq_eq_false_iff_ne.mpr
        intro he
        apply hnodup2.1
        rw [he]
        exact List.mem_map_of_mem Prod.fst hq2
      simp [List.any_append, h1, h2]
    have hstep := objSet_of_notMem translations q.1 q.2 (hdisj q (List.mem_cons_self q rest))
    calc mergeResponse translations (q :: rest)
        = mergeResponse (objSet translations q.1 q.2) rest := rfl
      _ = mergeResponse (translations ++ [(q.1, q.2)]) rest := by rw [hstep]
      _ = (translations ++ [(q.1, q.2)]) ++ rest := ih _ hd2 hnodup2.2
      _ = translations ++ q :: rest := by simp

/-- C7: getName partitions the requested uuids into cache misses and
cached uuid→name hits; with no miss it completes with the cached mapping
and issues no network call; otherwise it issues one batched fetch for
exactly the uncached uuids, writes a translation entry for every returned
pair, and on success returns the cached hits merged with the fetched
pairs (their union when the response keys are fresh and distinct). -/
theorem getName_batching (cache : String → Option String)
    (server : List String → Except TransportErr (List (String × String)))
    (uuids : List String) :
    (getNamePartition cache uuids).1 =
      uuids.filter (fun u => (cache ("/uuid/" ++ u)).isNone) ∧
    (getNamePartition cache uuids).2 =
      uuids.filterMap (fun u => (cache ("/uuid/" ++ u)).map (fun n => (u, n))) ∧
    ((getNamePartition cache uuids).1 = [] →
      getName cache server uuids =
        { result := .ok (getNamePartition cache uuids).2, fetched := none,
          transWrites := [] }) ∧
    ((getNamePartition cache uuids).1 ≠ [] →
      (getName cache server uuids).fetched = some (getNamePartition cache uuids).1 ∧
      (∀ obj, server (getNamePartition cache uuids).1 = .ok obj →
        getName cache server uuids =
          { result := .ok (mergeResponse (getNamePartition cache uuids).2 obj),
            fetched := some (getNamePartition cache uuids).1,
            transWrites := obj.map (fun q => ("/uuid/" ++ q.1, q.2)) })) ∧
    (∀ obj, (∀ q ∈ obj, ((getNamePartition cache uuids).2).any (fun p => p.1 == q.1) = false) →
      (obj.map Prod.fst).Nodup →
      mergeResponse ((getNamePartition cache uuids).2) obj =
        (getNamePartition cache uuids).2 ++ obj) := by
  refine ⟨by simp [getNamePartition_eq], by simp [getNamePartition_eq], ?_, ?_, ?_⟩
  · intro h
    unfold getName
    simp [h]
  · intro h
    have hlen : ((getNamePartition cache uuids).1.length == 0) = false := by
      simp [List.length_eq_zero, h]
    constructor
    · unfold getName
      cases hs : server (getNamePartition cache uuids).1 <;> simp [hlen, hs]
    · intro obj hobj
      unfold getName
      simp [hlen, hobj]
  · intro obj hdisj hnodup
    exact mergeResponse_disjoint obj _ hdisj hnodup

/-- C7 witness: with u1 cached as n1 and u2 uncached, requesting u1 alone
completes from the cache with no fetch, while requesting u1 and u2
fetches exactly u2, caches the returned pair, and returns both mappings. -/
theorem getName_batching_witness :
    getName (fun s => if s == "/uuid/u1" then some "n1" else none)
        (fun _ => .ok [("u2", "n2")]) ["u1"] =
      { result := .ok [("u1", "n1")], fetched := none, transWrites := [] } ∧
    getName (fun s => if s == "/uuid/u1" then some "n1" else none)
        (fun _ => .ok [("u2", "n2")]) ["u1", "u2"] =
      { result := .ok [("u1", "n1"), ("u2", "n2")], fetched := some ["u2"],
        transWrites := [("/uuid/u2", "n2")] } := by
  constructor
  · exact ((getName_batching (fun s => if s == "/uuid/u1" then some "n1" else none)
      (fun _ => .ok [("u2", "n2")]) ["u1"]).2.2.1 (by decide)).trans (by decide)
  · exact (((getName_batching (fun s => if s == "/uuid/u1" then some "n1" else none)
      (fun _ => .ok [("u2", "n2")]) ["u1", "u2"]).2.2.2.1 (by decide)).2
      [("u2", "n2")] rfl).trans (by decide)

/-- C8 counterexample: a getUser call with fallback requested whose
transport reports the user-not-found condition fails with that error and
yields no account portion (and writes nothing), contradicting the claimed
client-side fallback: that behavior exists only in the earlier revision
of the private fetch helper. -/
theorem getUser_fallback_cex :
    getUser (fun _ => none)
      (fun _ => .error { restCode := "UserDoesNotExist", message := "u does not exist" })
      "u" "a" true =
      { result := .error { restCode := "UserDoesNotExist", message := "u does not exist" },
        authWrites := [], transWrites := [], httpIssued := true } := rfl

/-- C8 amended: every transport failure of a user fetch — the
user-not-found condition included — is propagated to the caller unchanged
and stores nothing in either cache; the fallback request is instead
forwarded to the server inside the fetch path's fallback query parameter. -/
theorem getUser_error_propagation (authCache : String → Option Blob)
    (http : String → Except TransportErr Blob) (user account : String) (fallback : Bool)
    (e : TransportErr)
    (hmiss : authCache (getUserPath user account fallback) = none)
    (herr : http (getUserPath user account fallback) = .error e) :
    getUser authCache http user account fallback =
      { result := .error e, authWrites := [], transWrites := [], httpIssued := true } ∧
    getUserPath user account true =
      "/users?account=" ++ account ++ "&login=" ++ user ++ "&fallback=" ++ "true" := by
  constructor
  · unfold getUser _get
    simp [hmiss, herr]
  · rfl

/-- C8 witness: a concrete uncached fetch whose transport fails with a
non-user-not-found error propagates that error with no cache writes. -/
theorem getUser_error_propagation_witness :
    getUser (fun _ => none)
      (fun _ => .error { restCode := "ServiceUnavailable", message := "down" })
      "u" "a" false =
      { result := .error { restCode := "ServiceUnavailable", message := "down" },
        authWrites := [], transWrites := [], httpIssued := true } ∧
    getUserPath "u" "a" true = "/users?account=a&login=u&fallback=true" :=
  ⟨(getUser_error_propagation (fun _ => none)
      (fun _ => .error { restCode := "ServiceUnavailable", message := "down" })
      "u" "a" false { restCode := "ServiceUnavailable", message := "down" } rfl rfl).1,
   by decide⟩

/-- C9: a successful getUserById performs the underlying fetch on the
user path twice (two network fetches whenever the path is uncached, none
on a cache hit) and invokes the callback twice: once directly with the
fetched blob, and once more with it after the four account and user
uuid↔login translation entries were written. -/
theorem getUserById_double_fetch (authCache : String → Option Blob)
    (http : String → Except TransportErr Blob) (uuid : String) (info : Blob) (u : User)
    (hres : (_get authCache http (getUserByIdPath uuid)).result = .ok info)
    (huser : info.user = some u) :
    (getUserById authCache http uuid).firstCb = .ok info ∧
    (getUserById authCache http uuid).secondCb = some (.ok info) ∧
    (getUserById authCache http uuid).transWrites =
      [("/uuid/" ++ info.account.uuid, info.account.login),
       ("/account/" ++ info.account.login, info.account.uuid),
       ("/uuid/" ++ u.uuid, u.login),
       ("/user/" ++ u.login, u.uuid)] ∧
    (getUserById authCache http uuid).httpCalls =
      (if (authCache (getUserByIdPath uuid)).isNone then 2 else 0) := by
  have hio : (_get authCache http (getUserByIdPath uuid)).httpIssued =
      (authCache (getUserByIdPath uuid)).isNone := by
    unfold _get
    cases hc : authCache (getUserByIdPath uuid) with
    | some b => simp
    | none => cases hh : http (getUserByIdPath uuid) <;> simp
  unfold getUserById
  simp only [hres, huser, hio]
  cases hc : (authCache (getUserByIdPath uuid)).isNone <;> simp [hc]

/-- C9 witness: an uncached successful fetch issues two network calls,
invokes the callback twice with the blob, and back-fills all four
translation entries. -/
theorem getUserById_double_fetch_witness :
    (getUserById (fun _ => none)
      (fun _ => .ok { account := { uuid := "A", login := "alice",
                                   approved_for_provisioning := true, isOperator := false },
                      user := some { uuid := "U", login := "u", account := "A" } })
      "U").firstCb =
      .ok { account := { uuid := "A", login := "alice",
                         approved_for_provisioning := true, isOperator := false },
            user := some { uuid := "U", login := "u", account := "A" } } ∧
    (getUserById (fun _ => none)
      (fun _ => .ok { account := { uuid := "A", login := "alice",
                                   approved_for_provisioning := true, isOperator := false },
                      user := some { uuid := "U", login := "u", account := "A" } })
      "U").secondCb =
      some (.ok { account := { uuid := "A", login := "alice",
                               approved_for_provisioning := true, isOperator := false },
                  user := some { uuid := "U", login := "u", account := "A" } }) ∧
    (getUserById (fun _ => none)
      (fun _ => .ok { account := { uuid := "A", login := "alice",
                                   approved_for_provisioning := true, isOperator := false },
                      user := some { uuid := "U", login := "u", account := "A" } })
      "U").transWrites =
      [("/uuid/A", "alice"), ("/account/alice", "A"), ("/uuid/U", "u"), ("/user/u", "U")] ∧
    (getUserById (fun _ => none)
      (fun _ => .ok { account := { uuid := "A", login := "alice",
                                   approved_for_provisioning := true, isOperator := false },
                      user := some { uuid := "U", login := "u", account := "A" } })
      "U").httpCalls = 2 := by
  have h := getUserById_double_fetch (fun _ => none)
    (fun _ => .ok { account := { uuid := "A", login := "alice",
                                 approved_for_provisioning := true, isOperator := false },
                    user := some { uuid := "U", login := "u", account := "A" } })
    "U"
    { account := { uuid := "A", login := "alice",
                   approved_for_provisioning := true, isOperator := false },
      user := some { uuid := "U", login := "u", account := "A" } }
    { uuid := "U", login := "u", account := "A" } rfl rfl
  exact ⟨h.1, h.2.1, h.2.2.1.trans (by decide), h.2.2.2.trans (by decide)⟩

/-- C10: whenever authorize returns normally, the returned value is true;
every non-allow outcome is an error of one of the four kinds of
`AuthError` (AccountBlocked, InvalidRole, NoMatchingRoleTag,
RulesEvaluationFailed), which are the only error constructors. -/
theorem authorize_never_false (ev : List ParsedRule → EvalContext → Bool)
    (principal : Principal) (action : String) (resource : Resource) (conditions : Conditions)
    (b : Bool) (h : authorize ev principal action resource conditions = .ok b) :
    b = true := by
  unfold authorize at h
  dsimp only at h
  split at h
  · exact (Except.ok.inj h).symm
  · split at h
    · simp at h
    · split at h
      · simp at h
      · split at h
        · exact (Except.ok.inj h).symm
        · simp at h
        · split at h
          · simp at h
          · split at h
            · simp at h
            · split at h
              · simp at h
              · rename_i hok
                simp only [Bool.not_eq_true'] at hok
                simp only [Bool.not_eq_false] at hok
                exact (Except.ok.inj h).symm ▸ hok

/-- C10 witness: at a concrete input on which authorize returns normally
(the operator bypass), the returned value is true. -/
theorem authorize_never_false_witness :
    authorize (fun _ _ => false)
      { account := { uuid := "A", login := "alice",
                     approved_for_provisioning := true, isOperator := true },
        user := none, roles := [] }
      "getobject"
      { owner := { account := { uuid := "B", login := "bob",
                                approved_for_provisioning := true, isOperator := false },
                   user := none, roles := [] },
        roles := [] }
      { activeRoles := [], other := [] } = .ok true ∧ true = true :=
  ⟨rfl, authorize_never_false (fun _ _ => false)
    { account := { uuid := "A", login := "alice",
                   approved_for_provisioning := true, isOperator := true },
      user := none, roles := [] }
    "getobject"
    { owner := { account := { uuid := "B", login := "bob",
                              approved_for_provisioning := true, isOperator := false },
                 user := none, roles := [] },
      roles := [] }
    { activeRoles := [], other := [] } true rfl⟩
